import Mathlib

/-!
Shallow embedding of the core executor of the vmaf repository
(`src/python/src/vmaf/core/executor.py`), together with theorems checking
the natural-language specification against it.

Modelling conventions:
* An `Asset` records exactly the fields of the Python `Asset` object that the
  executor reads (paths, geometry, pixel-format tags, frame ranges, the
  `asset_dict` keys relevant to validation, the two workfile paths, and the
  mutable `use_path_as_workpath` flag).
* Python `assert` statements become `Except`-valued functions: a failing
  assert is an `Except.error` carrying a tag naming which assert fired.
* The filesystem is a list of existing paths; `os.remove` is `List.erase`.
* `Executor._run_on_asset` becomes a pure state-transition function
  `run_on_asset` over an explicit environment (`Env`) describing the outcome
  of each external effect (path existence, pipe readiness, the errno raised
  by `os.rmdir`, and the value produced by the read hook).  It returns the
  final result, the trace of performed steps, the updated result store and
  filesystem, and counters for generate-hook and transcoder invocations.
-/

deriving instance DecidableEq for Except

/-- The sentinel pixel-format tag meaning "not raw yuv". -/
def notyuv_tag : String := "notyuv"

/-- The `asset_dict` key for an explicitly supplied quality width. -/
def qw_key : String := "quality_width"

/-- The `asset_dict` key for an explicitly supplied quality height. -/
def qh_key : String := "quality_height"

/-- Separator used when concatenating identity strings. -/
def sep : String := "_"

/-- The fields of a vmaf `Asset` that the executor reads. -/
structure Asset where
  ref_path : String
  dis_path : String
  workdir : String
  ref_width_height : Option (Nat × Nat)
  dis_width_height : Option (Nat × Nat)
  quality_width_height : Option (Nat × Nat)
  crop_cmd : Option String
  pad_cmd : Option String
  ref_yuv_type : String
  dis_yuv_type : String
  workfile_yuv_type : String
  ref_start_end_frame : Option (Nat × Nat)
  dis_start_end_frame : Option (Nat × Nat)
  resampling_type : String
  asset_dict_keys : List String
  ref_workfile_path : String
  dis_workfile_path : String
  use_path_as_workpath : Bool
  deriving DecidableEq, Repr

/-- `Executor._need_ffmpeg` (executor.py lines 150-164), the transcode-needed
predicate, clause for clause in source order. -/
def need_ffmpeg (a : Asset) : Bool :=
  a.quality_width_height != a.ref_width_height
  || a.quality_width_height != a.dis_width_height
  || a.crop_cmd.isSome
  || a.pad_cmd.isSome
  || a.ref_yuv_type == notyuv_tag
  || a.dis_yuv_type == notyuv_tag
  || a.ref_start_end_frame.isSome
  || a.dis_start_end_frame.isSome

/-- `NorefExecutorMixin._need_ffmpeg` (executor.py lines 640-652): the
no-reference override, clause for clause in source order. -/
def noref_need_ffmpeg (a : Asset) : Bool :=
  a.quality_width_height != a.dis_width_height
  || a.crop_cmd.isSome
  || a.pad_cmd.isSome
  || a.dis_yuv_type == notyuv_tag
  || a.dis_start_end_frame.isSome

/-- The asset with every reference-side field replaced by the corresponding
distorted-side field; used to state that the no-reference predicate is the
full predicate evaluated on the distorted side alone. -/
def noref_view (a : Asset) : Asset :=
  { a with ref_width_height := a.dis_width_height,
           ref_yuv_type := a.dis_yuv_type,
           ref_start_end_frame := a.dis_start_end_frame }

/-- Tags naming which Python `assert` (or raise) fired. -/
inductive AssertError where
  | missingQualityDims
  | ffmpegMissing
  | yuvMismatch
  | cropNeedsExplicitQuality
  | padNeedsExplicitQuality
  | closeRefAssert
  | closeDisAssert
  | openRefAssert
  | openDisAssert
  deriving DecidableEq, Repr

/-- Classification of validation failures into the spec taxonomy: the
precondition-error class covers bad or ambiguous asset geometry (missing
quality dimensions; crop or pad requested without explicitly supplied
quality dimensions). -/
def isPreconditionError : AssertError → Bool
  | AssertError.missingQualityDims => true
  | AssertError.cropNeedsExplicitQuality => true
  | AssertError.padNeedsExplicitQuality => true
  | _ => false

/-- `Executor._assert_an_asset` (executor.py lines 166-188).
`ffmpeg_available` models whether `VmafExternalConfig.get_and_assert_ffmpeg`
succeeds; per source, it is consulted only when `need_ffmpeg` holds. -/
def assert_an_asset (ffmpeg_available : Bool) (a : Asset) : Except AssertError Unit :=
  if a.quality_width_height.isNone then Except.error AssertError.missingQualityDims
  else if need_ffmpeg a && !ffmpeg_available then Except.error AssertError.ffmpegMissing
  else if !((a.ref_yuv_type == notyuv_tag || a.dis_yuv_type == notyuv_tag)
            || a.ref_yuv_type == a.dis_yuv_type) then
    Except.error AssertError.yuvMismatch
  else if a.crop_cmd.isSome
          && !(a.asset_dict_keys.contains qw_key && a.asset_dict_keys.contains qh_key) then
    Except.error AssertError.cropNeedsExplicitQuality
  else if a.pad_cmd.isSome
          && !(a.asset_dict_keys.contains qw_key && a.asset_dict_keys.contains qh_key) then
    Except.error AssertError.padNeedsExplicitQuality
  else Except.ok ()

/-- `NorefExecutorMixin._assert_an_asset` (executor.py lines 654-670): same
checks minus the yuv-type match, using the no-reference predicate. -/
def noref_assert_an_asset (ffmpeg_available : Bool) (a : Asset) : Except AssertError Unit :=
  if a.quality_width_height.isNone then Except.error AssertError.missingQualityDims
  else if noref_need_ffmpeg a && !ffmpeg_available then Except.error AssertError.ffmpegMissing
  else if a.crop_cmd.isSome
          && !(a.asset_dict_keys.contains qw_key && a.asset_dict_keys.contains qh_key) then
    Except.error AssertError.cropNeedsExplicitQuality
  else if a.pad_cmd.isSome
          && !(a.asset_dict_keys.contains qw_key && a.asset_dict_keys.contains qh_key) then
    Except.error AssertError.padNeedsExplicitQuality
  else Except.ok ()

/-- `Executor._get_workfile_yuv_type` (executor.py lines 190-207); the final
branch carries an assert that the two types match. -/
def get_workfile_yuv_type (a : Asset) : Except AssertError String :=
  if a.ref_yuv_type == notyuv_tag && a.dis_yuv_type == notyuv_tag then
    Except.ok a.workfile_yuv_type
  else if a.ref_yuv_type == notyuv_tag && a.dis_yuv_type != notyuv_tag then
    Except.ok a.dis_yuv_type
  else if a.ref_yuv_type != notyuv_tag && a.dis_yuv_type == notyuv_tag then
    Except.ok a.ref_yuv_type
  else if a.ref_yuv_type == a.dis_yuv_type then
    Except.ok a.ref_yuv_type
  else
    Except.error AssertError.yuvMismatch

/-- `NorefExecutorMixin._get_workfile_yuv_type` (executor.py lines 672-680). -/
def noref_get_workfile_yuv_type (a : Asset) : String :=
  if a.dis_yuv_type == notyuv_tag then a.workfile_yuv_type
  else a.dis_yuv_type

/-- `Executor._close_ref_workfile` (executor.py lines 544-552), acting on a
filesystem modelled as the list of existing paths: assert that the workfile
path is distinct from the reference path, then remove the workfile path if
it exists. -/
def close_ref_workfile (fs : List String) (a : Asset) : Except AssertError (List String) :=
  if a.use_path_as_workpath == false && a.ref_path != a.ref_workfile_path then
    Except.ok (if fs.contains a.ref_workfile_path then fs.erase a.ref_workfile_path else fs)
  else
    Except.error AssertError.closeRefAssert

/-- `Executor._close_dis_workfile` (executor.py lines 554-562). -/
def close_dis_workfile (fs : List String) (a : Asset) : Except AssertError (List String) :=
  if a.use_path_as_workpath == false && a.dis_path != a.dis_workfile_path then
    Except.ok (if fs.contains a.dis_workfile_path then fs.erase a.dis_workfile_path else fs)
  else
    Except.error AssertError.closeDisAssert

/-- `Executor._close_workfiles` (executor.py lines 349-352): close ref then
dis. -/
def close_workfiles (fs : List String) (a : Asset) : Except AssertError (List String) :=
  match close_ref_workfile fs a with
  | Except.error e => Except.error e
  | Except.ok fs1 => close_dis_workfile fs1 a

/-- Errors that abort one asset's run inside `_run_on_asset`. -/
inductive RunError where
  | refPathMissing
  | disPathMissing
  | closeAssert (e : AssertError)
  | openAssert (e : AssertError)
  | workfileTimeout
  | rmdirError (errno : Nat)
  deriving DecidableEq, Repr

/-- Number of polling attempts in `_wait_for_workfiles` (the `range(10)`
loop, executor.py line 211). -/
def max_poll_attempts : Nat := 10

/-- Sleep between polling attempts in `_wait_for_workfiles`
(`sleep(0.1)`, executor.py line 215), in milliseconds. -/
def poll_interval_ms : Nat := 100

/-- `Executor._wait_for_workfiles` (executor.py lines 209-217): poll until
both workfile paths exist, breaking out of the loop on the first attempt at
which they do; if no attempt succeeds, raise.  `ready i` tells whether both
pipe paths exist at the i-th poll. -/
def wait_for_workfiles (ready : Nat → Bool) : Except RunError Unit :=
  if (List.range max_poll_attempts).any ready then Except.ok ()
  else Except.error RunError.workfileTimeout

/-- The result store, modelled as an association list from
(asset string, executor id) to the stored (opaque) result value. -/
abbrev Store : Type := List ((String × String) × Nat)

/-- `result_store.load(asset, executor_id)`. -/
def store_load : Store → String → String → Option Nat
  | [], _, _ => none
  | ((astr0, eid0), v) :: rest, astr, eid =>
      if astr0 = astr ∧ eid0 = eid then some v else store_load rest astr eid

/-- `result_store.save(result)`: the result is keyed by its own asset and
executor id. -/
def store_save (s : Store) (astr eid : String) (v : Nat) : Store :=
  ((astr, eid), v) :: s

/-- Steps of `_run_on_asset`, recorded in a trace. -/
inductive Event where
  | assertPaths
  | setUsePathAsWorkpath
  | closeWorkfiles
  | makeLogParentDirs
  | openWorkfilesFifo
  | openWorkfilesDirect
  | prepareLogFile
  | generate
  | readResult
  | saveResult
  | removeLog
  | removeLogDir
  | postProcess
  deriving DecidableEq, Repr

/-- The constructor flags of `Executor` that `_run_on_asset` consults. -/
structure Config where
  fifo_mode : Bool
  delete_workdir : Bool
  has_result_store : Bool
  deriving DecidableEq, Repr

/-- Outcomes of the external effects performed during one run. -/
structure Env where
  ref_path_exists : Bool
  dis_path_exists : Bool
  pipe_ready : Nat → Bool
  rmdir_errno : Option Nat
  gen_value : Nat

/-- Everything observable about one `_run_on_asset` call: the returned (or
raised) result, the trace of steps performed, the final store and
filesystem, the asset (whose flag may have been set), and invocation
counters for the generate hook and the transcoder. -/
structure RunOutcome where
  result : Except RunError Nat
  events : List Event
  store : Store
  fs : List String
  asset : Asset
  genCount : Nat
  transcoderCalls : Nat
  deriving DecidableEq, Repr

/-- `Executor._set_asset_use_path_as_workpath` (executor.py lines 365-370):
set the flag iff no transcode is needed (never cleared). -/
def set_asset_use_path_as_workpath (a : Asset) : Asset :=
  if !(need_ffmpeg a) then { a with use_path_as_workpath := true } else a

/-- The `os.rmdir` cleanup of the log directory (executor.py lines 321-330).
The Python code is `try: os.rmdir(...) except OSError as e:` with handler
body `if e.errno == 39: pass`.  An except-clause whose body completes
normally suppresses the exception, and this body completes normally for
every errno, so every `OSError` is swallowed (the errno test has no
effect); a non-`OSError` exception would propagate, but `os.rmdir` raises
only `OSError`.  The two branches below are therefore deliberately equal:
that is exactly what the source does. -/
def rmdir_remove_log_dir (errno_raised : Option Nat) : Except RunError Unit :=
  match errno_raised with
  | none => Except.ok ()
  | some errno => if errno == 39 then Except.ok () else Except.ok ()

/-- What the spec says the cleanup should do: swallow only the
directory-not-empty errno (39) and propagate every other error.  Written
from the spec for comparison with `rmdir_remove_log_dir`. -/
def rmdir_remove_log_dir_spec (errno_raised : Option Nat) : Except RunError Unit :=
  match errno_raised with
  | none => Except.ok ()
  | some errno =>
      if errno == 39 then Except.ok () else Except.error (RunError.rmdirError errno)

/-- `Executor.open_workfiles` in direct (non-fifo) mode (executor.py lines
336-338, 384-482): each side asserts the flag is unset and that the
workfile path differs from the source path, then invokes the transcoder
which materializes the workfile.  Returns the new filesystem (or the
failing assert) together with the number of transcoder invocations made. -/
def open_workfiles_direct (fs : List String) (a : Asset) :
    (Except AssertError (List String)) × Nat :=
  if a.use_path_as_workpath == false && a.ref_path != a.ref_workfile_path then
    if a.use_path_as_workpath == false && a.dis_path != a.dis_workfile_path then
      (Except.ok (a.dis_workfile_path :: a.ref_workfile_path :: fs), 2)
    else (Except.error AssertError.openDisAssert, 1)
  else (Except.error AssertError.openRefAssert, 0)

/-- The workfile-preparation step of `_run_on_asset` (executor.py lines
280-287): skipped entirely when the flag is set; otherwise fifo mode starts
the two producer processes (each invoking the transcoder) and waits for the
pipes, and direct mode transcodes synchronously.  Returns the resulting
filesystem or error, the trace events, and the transcoder invocations. -/
def open_step (cfg : Config) (env : Env) (fs : List String) (a : Asset) :
    (Except RunError (List String)) × List Event × Nat :=
  if a.use_path_as_workpath then (Except.ok fs, [], 0)
  else if cfg.fifo_mode then
    match wait_for_workfiles env.pipe_ready with
    | Except.error e => (Except.error e, [Event.openWorkfilesFifo], 2)
    | Except.ok _ =>
        (Except.ok (a.dis_workfile_path :: a.ref_workfile_path :: fs),
         [Event.openWorkfilesFifo], 2)
  else
    match open_workfiles_direct fs a with
    | (Except.error e, tc) => (Except.error (RunError.openAssert e), [Event.openWorkfilesDirect], tc)
    | (Except.ok fs2, tc) => (Except.ok fs2, [Event.openWorkfilesDirect], tc)

/-- The body of `_run_on_asset` after the cache miss, the path asserts and
the workpath decision (executor.py lines 269-332).  Factored out so that
proofs can reason about it separately; `a` already has its flag decided. -/
def run_on_asset_miss (cfg : Config) (pp : Nat → Nat) (env : Env) (store : Store)
    (fs : List String) (eid astr : String) (a : Asset) : RunOutcome :=
  match (if a.use_path_as_workpath then Except.ok fs else close_workfiles fs a) with
  | Except.error e =>
      { result := Except.error (RunError.closeAssert e),
        events := [Event.assertPaths, Event.setUsePathAsWorkpath, Event.closeWorkfiles],
        store := store, fs := fs, asset := a, genCount := 0, transcoderCalls := 0 }
  | Except.ok fs1 =>
      let evs2 := [Event.assertPaths, Event.setUsePathAsWorkpath]
        ++ (if a.use_path_as_workpath then [] else [Event.closeWorkfiles])
        ++ [Event.makeLogParentDirs]
      match open_step cfg env fs1 a with
      | (Except.error e, oev, tc) =>
          { result := Except.error e, events := evs2 ++ oev,
            store := store, fs := fs1, asset := a, genCount := 0, transcoderCalls := tc }
      | (Except.ok fs2, oev, tc) =>
          let evs3 := evs2 ++ oev ++ [Event.prepareLogFile, Event.generate]
          match (if cfg.delete_workdir then
                   (if a.use_path_as_workpath then Except.ok fs2 else close_workfiles fs2 a)
                 else Except.ok fs2) with
          | Except.error e =>
              { result := Except.error (RunError.closeAssert e),
                events := evs3 ++ [Event.closeWorkfiles],
                store := store, fs := fs2, asset := a, genCount := 1, transcoderCalls := tc }
          | Except.ok fs3 =>
              let evs4 := evs3
                ++ (if cfg.delete_workdir && !a.use_path_as_workpath then [Event.closeWorkfiles] else [])
                ++ [Event.readResult]
              let v := env.gen_value
              let store2 := if cfg.has_result_store then store_save store astr eid v else store
              let evs5 := evs4 ++ (if cfg.has_result_store then [Event.saveResult] else [])
              match (if cfg.delete_workdir then rmdir_remove_log_dir env.rmdir_errno
                     else Except.ok ()) with
              | Except.error e =>
                  { result := Except.error e,
                    events := evs5 ++ [Event.removeLog, Event.removeLogDir],
                    store := store2, fs := fs3, asset := a, genCount := 1, transcoderCalls := tc }
              | Except.ok _ =>
                  { result := Except.ok (pp v),
                    events := evs5
                      ++ (if cfg.delete_workdir then [Event.removeLog, Event.removeLogDir] else [])
                      ++ [Event.postProcess],
                    store := store2, fs := fs3, asset := a, genCount := 1, transcoderCalls := tc }

/-- `Executor._run_on_asset` (executor.py lines 237-334), step for step:
cache lookup; on a hit only the post-process transform runs; on a miss the
path asserts, the workpath decision, the early workfile teardown, log-dir
creation, workfile preparation, log-file preparation, the generate hook,
the post-generate teardown, the read hook, the save, the log cleanup and
the post-process transform run in source order, each fallible step aborting
the rest.  `pp` is `_post_process_result`, `astr` is `str(asset)` and `eid`
is `executor_id`. -/
def run_on_asset (cfg : Config) (pp : Nat → Nat) (env : Env) (store : Store)
    (fs : List String) (eid astr : String) (a0 : Asset) : RunOutcome :=
  match (if cfg.has_result_store then store_load store astr eid else none) with
  | some r =>
      { result := Except.ok (pp r), events := [Event.postProcess],
        store := store, fs := fs, asset := a0, genCount := 0, transcoderCalls := 0 }
  | none =>
      if !env.ref_path_exists then
        { result := Except.error RunError.refPathMissing, events := [Event.assertPaths],
          store := store, fs := fs, asset := a0, genCount := 0, transcoderCalls := 0 }
      else if !env.dis_path_exists then
        { result := Except.error RunError.disPathMissing, events := [Event.assertPaths],
          store := store, fs := fs, asset := a0, genCount := 0, transcoderCalls := 0 }
      else
        run_on_asset_miss cfg pp env store fs eid astr (set_asset_use_path_as_workpath a0)

/-- The whole per-asset pipeline: `Executor.__init__` validates every asset
(via `_assert_assets`, executor.py lines 66-68 and 143-148) before `run`
can ever call `_run_on_asset`; a validation failure therefore precedes any
transcoder invocation. -/
def executor_pipeline (ffmpeg_available : Bool) (cfg : Config) (pp : Nat → Nat)
    (env : Env) (store : Store) (fs : List String) (eid astr : String) (a : Asset) :
    Except AssertError RunOutcome :=
  match assert_an_asset ffmpeg_available a with
  | Except.error e => Except.error e
  | Except.ok _ => Except.ok (run_on_asset cfg pp env store fs eid astr a)

/-- Transcoder invocations made by a pipeline outcome: none when validation
already failed. -/
def pipeline_transcoder_calls : Except AssertError RunOutcome → Nat
  | Except.error _ => 0
  | Except.ok o => o.transcoderCalls

/-- Lookup in the lazily built map from asset string to lock.  Locks are
identified by the order in which they were created (a fresh
`multiprocessing.Lock()` per new string). -/
def find_lock : List (String × Nat) → String → Option Nat
  | [], _ => none
  | (k, v) :: rest, s => if k = s then some v else find_lock rest s

/-- The lock-building loop shared by `Executor.run` (executor.py lines
100-108) and `run_executors_in_parallel` (lines 599-606): walk the asset
strings, creating a lock for each string not yet in the map and appending
the mapped lock for every asset. -/
def build_locks_aux : List String → List (String × Nat) → Nat → List Nat
  | [], _, _ => []
  | s :: rest, m, next =>
      match find_lock m s with
      | some l => l :: build_locks_aux rest m next
      | none => next :: build_locks_aux rest ((s, next) :: m) (next + 1)

/-- The per-batch lock list: one lock per asset position, reusing one lock
object per distinct asset string. -/
def build_locks (strs : List String) : List Nat :=
  build_locks_aux strs [] 0

/-- A key-value pair of a parameter dictionary. -/
abbrev KV : Type := String × String

/-- Total order on key-value pairs: by key, ties broken by value.  On the
unique-keyed item lists of a Python dict this coincides with
`sorted(d.items())`, i.e. sorting by key. -/
def kvLe (x y : KV) : Prop :=
  x.1 < y.1 ∨ (x.1 = y.1 ∧ x.2 ≤ y.2)

instance kvLe_decidable : DecidableRel kvLe :=
  fun x y => inferInstanceAs (Decidable (x.1 < y.1 ∨ (x.1 = y.1 ∧ x.2 ≤ y.2)))

instance kvLe_total : IsTotal KV kvLe := by
  constructor
  intro x y
  rcases lt_trichotomy x.1 y.1 with h | h | h
  · exact Or.inl (Or.inl h)
  · rcases le_total x.2 y.2 with h2 | h2
    · exact Or.inl (Or.inr ⟨h, h2⟩)
    · exact Or.inr (Or.inr ⟨h.symm, h2⟩)
  · exact Or.inr (Or.inl h)

instance kvLe_trans : IsTrans KV kvLe := by
  constructor
  intro x y z hxy hyz
  rcases hxy with h1 | ⟨h1, h1v⟩
  · rcases hyz with h2 | ⟨h2, _⟩
    · exact Or.inl (h1.trans h2)
    · exact Or.inl (h2 ▸ h1)
  · rcases hyz with h2 | ⟨h2, h2v⟩
    · exact Or.inl (h1 ▸ h2)
    · exact Or.inr ⟨h1.trans h2, h1v.trans h2v⟩

instance kvLe_antisymm : IsAntisymm KV kvLe := by
  constructor
  intro x y hxy hyx
  rcases hxy with h1 | ⟨h1, h1v⟩
  · rcases hyx with h2 | ⟨h2, _⟩
    · exact absurd (h1.trans h2) (lt_irrefl _)
    · exact absurd h1 (h2 ▸ lt_irrefl _)
  · rcases hyx with h2 | ⟨h2, h2v⟩
    · exact absurd h2 (h1 ▸ lt_irrefl _)
    · exact Prod.ext h1 (le_antisymm h1v h2v)

/-- Rendering of one key-value pair inside the normalized string. -/
def render_kv (kv : KV) : String :=
  kv.1 ++ sep ++ kv.2

/-- Modelled from the spec: `get_normalized_string_from_dict` lives in
`vmaf/tools/misc.py`, which is not among the given sources.  The spec
(section 4.1) says the "impacts-result" parameter set is canonicalized by
sorting its keys into an order-stable string form before concatenation;
this is modelled as sorting the key-value pairs (keys first, so on the
unique-keyed items of a dict this is exactly sorting by key) and joining
their renderings. -/
def get_normalized_string_from_dict (d : List KV) : String :=
  String.intercalate sep ((List.insertionSort kvLe d).map render_kv)

/-- `Executor.executor_id` (executor.py lines 75-83).  `tvs` stands for
`TypeVersionEnabled.get_type_version_string(self)` (whose definition lives
in `vmaf/core/mixin.py`, outside the given sources; the spec describes it
as the type and version tags, so it is taken here as an opaque string
determined by them).  `optional_dict2` is accepted, exactly as by the
constructor, to state that it never enters the identity. -/
def executor_id (tvs : String) (optional_dict optional_dict2 : Option (List KV)) : String :=
  match optional_dict with
  | some d => if 0 < d.length then tvs ++ sep ++ get_normalized_string_from_dict d else tvs
  | none => tvs

/-- Equality of optional parameter sets up to dictionary item order. -/
def OptPerm : Option (List KV) → Option (List KV) → Prop
  | none, none => True
  | some d, some d2 => List.Perm d d2
  | _, _ => False

/-- A plain well-formed asset used as the base of concrete instances. -/
def asset0 : Asset :=
  { ref_path := "ref.yuv", dis_path := "dis.yuv", workdir := "wd",
    ref_width_height := some (1920, 1080), dis_width_height := some (1920, 1080),
    quality_width_height := some (1920, 1080), crop_cmd := none, pad_cmd := none,
    ref_yuv_type := "yuv420p", dis_yuv_type := "yuv420p", workfile_yuv_type := "yuv420p",
    ref_start_end_frame := none, dis_start_end_frame := none,
    resampling_type := "bicubic", asset_dict_keys := [],
    ref_workfile_path := "wd/ref_wf", dis_workfile_path := "wd/dis_wf",
    use_path_as_workpath := false }

/-- Concrete asset whose reference side is notyuv. -/
def c10_asset : Asset := { asset0 with ref_yuv_type := notyuv_tag }

/-- Concrete asset whose reference workfile path equals its reference source
path. -/
def c2_asset : Asset := { asset0 with ref_workfile_path := asset0.ref_path }

/-- Concrete asset requesting a crop while its asset dictionary lacks the
explicit quality keys. -/
def c7_asset : Asset := { asset0 with crop_cmd := some ("100:100:0:0") }

/-- Concrete executor configuration used by witnesses. -/
def cfg0 : Config := { fifo_mode := false, delete_workdir := true, has_result_store := false }

/-- Concrete benign environment used by witnesses. -/
def env0 : Env := { ref_path_exists := true, dis_path_exists := true,
                    pipe_ready := fun _ => false, rmdir_errno := none, gen_value := 0 }

/-- Concrete executor id string used by witnesses. -/
def eid0 : String := "eid"

/-- Concrete asset string used by witnesses. -/
def astr0 : String := "astr"

/-- Concrete fifo configuration with a result store, used by witnesses. -/
def cfg_fifo : Config := { fifo_mode := true, delete_workdir := true, has_result_store := true }

/-- Concrete environment in which the pipes never appear. -/
def env_nopipes : Env := { ref_path_exists := true, dis_path_exists := true,
                           pipe_ready := fun _ => false, rmdir_errno := none, gen_value := 3 }

/-- Concrete asset that needs a transcode (restricted frame range). -/
def c6_asset : Asset := { asset0 with dis_start_end_frame := some (0, 47) }

/-- Concrete store holding a cached result for the witness asset. -/
def store1 : Store := [((astr0, eid0), 5)]

/-- Environment in which removing the log directory raises OSError with
errno 13 (permission denied), i.e. an error that is not
directory-not-empty (errno 39). -/
def env_rmdir13 : Env := { ref_path_exists := true, dis_path_exists := true,
                           pipe_ready := fun _ => false, rmdir_errno := some 13, gen_value := 7 }

/-- C3: the transcode-needed predicate holds exactly when the quality target
size differs from the reference or distorted native size, or a crop or pad
is requested, or either side's frame range is restricted, or either side's
pixel-format tag is the notyuv sentinel; and the no-reference variant is
the same condition evaluated using only the distorted side's size, format
and frame range (formally: on the asset with the reference-side fields
replaced by the distorted-side ones). -/
theorem C3_need_ffmpeg_characterization (a : Asset) :
    (need_ffmpeg a = true ↔
      (a.quality_width_height ≠ a.ref_width_height ∨
       a.quality_width_height ≠ a.dis_width_height ∨
       a.crop_cmd ≠ none ∨
       a.pad_cmd ≠ none ∨
       a.ref_start_end_frame ≠ none ∨
       a.dis_start_end_frame ≠ none ∨
       a.ref_yuv_type = notyuv_tag ∨
       a.dis_yuv_type = notyuv_tag))
    ∧ noref_need_ffmpeg a = need_ffmpeg (noref_view a) := by
  constructor
  · simp only [need_ffmpeg, Bool.or_eq_true, bne_iff_ne, ne_eq, Option.isSome_iff_ne_none,
      beq_iff_eq]
    tauto
  · rw [Bool.eq_iff_iff]
    simp only [noref_need_ffmpeg, need_ffmpeg, noref_view, Bool.or_eq_true, bne_iff_ne,
      ne_eq, Option.isSome_iff_ne_none, beq_iff_eq]
    tauto

/-- C10: workfile pixel-format resolution.  When exactly one of the two
sides is the notyuv sentinel the workfile format is the other side's; when
both are, it is the asset's externally configured workfile format; when
neither is, the two being equal is a precondition (otherwise the assert
fires) and the common format is returned.  The no-reference variant
resolves from the distorted side alone. -/
theorem C10_workfile_yuv_resolution (a : Asset) :
    (a.ref_yuv_type = notyuv_tag → a.dis_yuv_type = notyuv_tag →
       get_workfile_yuv_type a = Except.ok a.workfile_yuv_type)
    ∧ (a.ref_yuv_type = notyuv_tag → a.dis_yuv_type ≠ notyuv_tag →
       get_workfile_yuv_type a = Except.ok a.dis_yuv_type)
    ∧ (a.ref_yuv_type ≠ notyuv_tag → a.dis_yuv_type = notyuv_tag →
       get_workfile_yuv_type a = Except.ok a.ref_yuv_type)
    ∧ (a.ref_yuv_type ≠ notyuv_tag → a.dis_yuv_type ≠ notyuv_tag →
       a.ref_yuv_type = a.dis_yuv_type →
       get_workfile_yuv_type a = Except.ok a.ref_yuv_type)
    ∧ (a.ref_yuv_type ≠ notyuv_tag → a.dis_yuv_type ≠ notyuv_tag →
       a.ref_yuv_type ≠ a.dis_yuv_type →
       get_workfile_yuv_type a = Except.error AssertError.yuvMismatch)
    ∧ (a.dis_yuv_type = notyuv_tag →
       noref_get_workfile_yuv_type a = a.workfile_yuv_type)
    ∧ (a.dis_yuv_type ≠ notyuv_tag →
       noref_get_workfile_yuv_type a = a.dis_yuv_type) := by
  refine ⟨fun h1 h2 => ?_, fun h1 h2 => ?_, fun h1 h2 => ?_, fun h1 h2 h3 => ?_,
    fun h1 h2 h3 => ?_, fun h1 => ?_, fun h1 => ?_⟩ <;>
    simp_all [get_workfile_yuv_type, noref_get_workfile_yuv_type]

/-- Witness for C10 at a concrete asset: with the reference side notyuv and
the distorted side yuv420p, the workfile format is the distorted side's,
and the no-reference variant also resolves to the distorted side's. -/
theorem C10_workfile_yuv_resolution_witness :
    get_workfile_yuv_type c10_asset = Except.ok ("yuv420p")
    ∧ noref_get_workfile_yuv_type c10_asset = "yuv420p" :=
  ⟨(C10_workfile_yuv_resolution c10_asset).2.1 rfl (by decide),
   (C10_workfile_yuv_resolution c10_asset).2.2.2.2.2.2 (by decide)⟩

/-- A path not in the filesystem is not contained in it. -/
theorem contains_eq_false_of_not_mem (l : List String) (x : String) (h : x ∉ l) :
    l.contains x = false := by
  cases hc : l.contains x with
  | false => rfl
  | true => exact absurd (List.mem_of_elem_eq_true hc) h

/-- A path in the filesystem is contained in it. -/
theorem contains_eq_true_of_mem (l : List String) (x : String) (h : x ∈ l) :
    l.contains x = true :=
  List.elem_eq_true_of_mem h

/-- Teardown of the reference workfile, when its path differs from the
source path, removes exactly the workfile path from the filesystem. -/
theorem close_ref_workfile_eq (fs : List String) (a : Asset)
    (hflag : a.use_path_as_workpath = false) (h : a.ref_path ≠ a.ref_workfile_path) :
    close_ref_workfile fs a = Except.ok (fs.erase a.ref_workfile_path) := by
  have hcond : (a.use_path_as_workpath == false && a.ref_path != a.ref_workfile_path) = true := by
    simp [hflag, h]
  rw [close_ref_workfile, if_pos hcond]
  by_cases hm : a.ref_workfile_path ∈ fs
  · rw [contains_eq_true_of_mem fs _ hm]
    simp
  · rw [contains_eq_false_of_not_mem fs _ hm]
    simp [List.erase_of_not_mem hm]

/-- Teardown of the distorted workfile, when its path differs from the
source path, removes exactly the workfile path from the filesystem. -/
theorem close_dis_workfile_eq (fs : List String) (a : Asset)
    (hflag : a.use_path_as_workpath = false) (h : a.dis_path ≠ a.dis_workfile_path) :
    close_dis_workfile fs a = Except.ok (fs.erase a.dis_workfile_path) := by
  have hcond : (a.use_path_as_workpath == false && a.dis_path != a.dis_workfile_path) = true := by
    simp [hflag, h]
  rw [close_dis_workfile, if_pos hcond]
  by_cases hm : a.dis_workfile_path ∈ fs
  · rw [contains_eq_true_of_mem fs _ hm]
    simp
  · rw [contains_eq_false_of_not_mem fs _ hm]
    simp [List.erase_of_not_mem hm]

/-- C2 (amended): workfile teardown deletes a workfile path only when it
exists and never deletes the reference or distorted source path: before any
deletion it asserts that the workfile path differs from the corresponding
source path, and if the two paths are equal, the assertion fires (an error
is raised and no deletion is performed) instead of teardown being silently
skipped. -/
theorem C2_close_workfile_never_deletes_source (fs : List String) (a : Asset)
    (hflag : a.use_path_as_workpath = false) :
    (a.ref_path ≠ a.ref_workfile_path →
       close_ref_workfile fs a = Except.ok (fs.erase a.ref_workfile_path)
       ∧ (a.ref_path ∈ fs.erase a.ref_workfile_path ↔ a.ref_path ∈ fs)
       ∧ ∀ p, p ≠ a.ref_workfile_path → (p ∈ fs.erase a.ref_workfile_path ↔ p ∈ fs))
    ∧ (a.ref_path = a.ref_workfile_path →
       close_ref_workfile fs a = Except.error AssertError.closeRefAssert)
    ∧ (a.dis_path ≠ a.dis_workfile_path →
       close_dis_workfile fs a = Except.ok (fs.erase a.dis_workfile_path)
       ∧ (a.dis_path ∈ fs.erase a.dis_workfile_path ↔ a.dis_path ∈ fs)
       ∧ ∀ p, p ≠ a.dis_workfile_path → (p ∈ fs.erase a.dis_workfile_path ↔ p ∈ fs))
    ∧ (a.dis_path = a.dis_workfile_path →
       close_dis_workfile fs a = Except.error AssertError.closeDisAssert) := by
  refine ⟨fun h => ⟨close_ref_workfile_eq fs a hflag h, List.mem_erase_of_ne h,
      fun p hp => List.mem_erase_of_ne hp⟩,
    fun h => ?_,
    fun h => ⟨close_dis_workfile_eq fs a hflag h, List.mem_erase_of_ne h,
      fun p hp => List.mem_erase_of_ne hp⟩,
    fun h => ?_⟩
  · simp [close_ref_workfile, hflag, h]
  · simp [close_dis_workfile, hflag, h]

/-- Counterexample to C2 as stated: when the workfile path equals the source
path, teardown is not silently skipped; the assertion fires and an error is
raised. -/
theorem C2_close_workfile_counterexample :
    c2_asset.ref_path = c2_asset.ref_workfile_path
    ∧ c2_asset.use_path_as_workpath = false
    ∧ close_ref_workfile [c2_asset.ref_path] c2_asset
        = Except.error AssertError.closeRefAssert := by
  refine ⟨rfl, rfl, ?_⟩
  decide

/-- Witness for C2 at a concrete input: with distinct paths, teardown
removes exactly the workfile path and the source path survives. -/
theorem C2_close_workfile_never_deletes_source_witness :
    close_ref_workfile ["ref.yuv", "wd/ref_wf"] asset0
      = Except.ok (["ref.yuv", "wd/ref_wf"].erase ("wd/ref_wf"))
    ∧ ("ref.yuv" ∈ (["ref.yuv", "wd/ref_wf"] : List String).erase ("wd/ref_wf")
        ↔ "ref.yuv" ∈ (["ref.yuv", "wd/ref_wf"] : List String)) :=
  ⟨((C2_close_workfile_never_deletes_source ["ref.yuv", "wd/ref_wf"] asset0 rfl).1
      (by decide)).1,
   ((C2_close_workfile_never_deletes_source ["ref.yuv", "wd/ref_wf"] asset0 rfl).1
      (by decide)).2.1⟩

/-- C8: the computation identity string is a deterministic function of the
type-version tag and the canonicalized impacts-result parameter set; the
does-not-impact-result set never enters it.  Two executors with the same
type-version tag and equal impacts-result sets (equal as dictionaries,
i.e. up to item order) have equal identity strings whatever their
does-not-impact-result sets are. -/
theorem C8_executor_id_ignores_optional_dict2 (tvs : String)
    (d d' od2 od2' : Option (List KV)) (h : OptPerm d d') :
    executor_id tvs d od2 = executor_id tvs d' od2' := by
  cases d with
  | none =>
      cases d' with
      | none => rfl
      | some l => exact absurd h (by simp [OptPerm])
  | some l =>
      cases d' with
      | none => exact absurd h (by simp [OptPerm])
      | some l' =>
          have hp : List.Perm l l' := h
          have hsort : List.insertionSort kvLe l = List.insertionSort kvLe l' :=
            List.eq_of_perm_of_sorted
              ((List.perm_insertionSort kvLe l).trans
                (hp.trans (List.perm_insertionSort kvLe l').symm))
              (List.sorted_insertionSort kvLe l) (List.sorted_insertionSort kvLe l')
          simp [executor_id, get_normalized_string_from_dict, hsort, hp.length_eq]

/-- Witness for C8: same type-version tag, the same impacts-result
dictionary given in two different item orders, and two different
does-not-impact-result sets, yield the same identity string. -/
theorem C8_executor_id_ignores_optional_dict2_witness :
    executor_id ("VMAF_V0.1") (some [("b", "1"), ("a", "2")]) (some [("cache", "x")])
      = executor_id ("VMAF_V0.1") (some [("a", "2"), ("b", "1")]) none :=
  C8_executor_id_ignores_optional_dict2 ("VMAF_V0.1") _ _ _ _
    (List.Perm.swap ("a", "2") ("b", "1") [])

/-- If the map being built already maps `s` to lock `l`, every later
position holding string `s` is paired with that same lock. -/
theorem build_locks_aux_get_of_find (strs : List String) (m : List (String × Nat))
    (next : Nat) (s : String) (l : Nat) (hm : find_lock m s = some l) :
    ∀ i : Nat, strs[i]? = some s → (build_locks_aux strs m next)[i]? = some l := by
  induction strs generalizing m next with
  | nil => intro i hi; simp at hi
  | cons s0 rest ih =>
      intro i hi
      cases i with
      | zero =>
          simp at hi
          subst hi
          simp [build_locks_aux, hm]
      | succ k =>
          simp only [List.getElem?_cons_succ] at hi
          cases hf : find_lock m s0 with
          | some l0 =>
              simpa [build_locks_aux, hf] using ih m next hm k hi
          | none =>
              have hne : s0 ≠ s := by
                intro he
                rw [he, hm] at hf
                exact Option.noConfusion hf
              have hm2 : find_lock ((s0, next) :: m) s = some l := by
                rw [find_lock, if_neg hne]
                exact hm
              simpa [build_locks_aux, hf] using ih ((s0, next) :: m) (next + 1) hm2 k hi

/-- Two positions holding the same asset string receive the same lock, for
any state of the lazily built map. -/
theorem build_locks_aux_same (strs : List String) (m : List (String × Nat)) (next : Nat)
    (s : String) (i j : Nat) (hi : strs[i]? = some s) (hj : strs[j]? = some s) :
    ∃ l, (build_locks_aux strs m next)[i]? = some l
      ∧ (build_locks_aux strs m next)[j]? = some l := by
  induction strs generalizing m next i j with
  | nil => simp at hi
  | cons s0 rest ih =>
      cases i with
      | zero =>
          simp at hi
          subst hi
          cases j with
          | zero =>
              cases hf : find_lock m s0 with
              | some l0 =>
                  exact ⟨l0, by simp [build_locks_aux, hf], by simp [build_locks_aux, hf]⟩
              | none =>
                  exact ⟨next, by simp [build_locks_aux, hf], by simp [build_locks_aux, hf]⟩
          | succ k =>
              simp only [List.getElem?_cons_succ] at hj
              cases hf : find_lock m s0 with
              | some l0 =>
                  refine ⟨l0, by simp [build_locks_aux, hf], ?_⟩
                  simpa [build_locks_aux, hf] using
                    build_locks_aux_get_of_find rest m next s0 l0 hf k hj
              | none =>
                  have hm2 : find_lock ((s0, next) :: m) s0 = some next := by
                    rw [find_lock, if_pos rfl]
                  refine ⟨next, by simp [build_locks_aux, hf], ?_⟩
                  simpa [build_locks_aux, hf] using
                    build_locks_aux_get_of_find rest ((s0, next) :: m) (next + 1) s0 next hm2 k hj
      | succ k =>
          simp only [List.getElem?_cons_succ] at hi
          cases j with
          | zero =>
              simp at hj
              subst hj
              cases hf : find_lock m s0 with
              | some l0 =>
                  refine ⟨l0, ?_, by simp [build_locks_aux, hf]⟩
                  simpa [build_locks_aux, hf] using
                    build_locks_aux_get_of_find rest m next s0 l0 hf k hi
              | none =>
                  have hm2 : find_lock ((s0, next) :: m) s0 = some next := by
                    rw [find_lock, if_pos rfl]
                  refine ⟨next, ?_, by simp [build_locks_aux, hf]⟩
                  simpa [build_locks_aux, hf] using
                    build_locks_aux_get_of_find rest ((s0, next) :: m) (next + 1) s0 next hm2 k hi
          | succ k2 =>
              simp only [List.getElem?_cons_succ] at hj
              cases hf : find_lock m s0 with
              | some l0 =>
                  obtain ⟨l, h1, h2⟩ := ih m next k k2 hi hj
                  exact ⟨l, by simpa [build_locks_aux, hf] using h1,
                    by simpa [build_locks_aux, hf] using h2⟩
              | none =>
                  obtain ⟨l, h1, h2⟩ := ih ((s0, next) :: m) (next + 1) k k2 hi hj
                  exact ⟨l, by simpa [build_locks_aux, hf] using h1,
                    by simpa [build_locks_aux, hf] using h2⟩

/-- C9: in the scheduler's lock list, any two positions whose asset strings
are equal are paired with the identical lock. -/
theorem C9_lock_reuse (strs : List String) (i j : Nat) (s : String)
    (hi : strs[i]? = some s) (hj : strs[j]? = some s) :
    ∃ l, (build_locks strs)[i]? = some l ∧ (build_locks strs)[j]? = some l :=
  build_locks_aux_same strs [] 0 s i j hi hj

/-- Witness for C9: in the batch ["A", "B", "A"], positions 0 and 2 share
one lock. -/
theorem C9_lock_reuse_witness :
    ∃ l, (build_locks ["A", "B", "A"])[0]? = some l
      ∧ (build_locks ["A", "B", "A"])[2]? = some l :=
  C9_lock_reuse ["A", "B", "A"] 0 2 ("A") rfl rfl

/-- C7: an asset that requests a crop or a pad without both quality
dimensions explicitly present in its asset dictionary fails validation
with a precondition-class error, in the full validator and in the
no-reference variant alike; since `__init__` validates every asset before
`run` can start, the whole pipeline errors out and the transcoder is
invoked zero times.  (The yuv-compatibility hypothesis discharges the
earlier format assert of the full validator; ffmpeg is taken as
available, otherwise the missing-tool check would fire first.) -/
theorem C7_crop_pad_requires_explicit_quality (cfg : Config) (pp : Nat → Nat) (env : Env)
    (store : Store) (fs : List String) (eid astr : String) (a : Asset)
    (hreq : a.crop_cmd ≠ none ∨ a.pad_cmd ≠ none)
    (hmiss : ¬(a.asset_dict_keys.contains qw_key = true
               ∧ a.asset_dict_keys.contains qh_key = true))
    (hyuv : a.ref_yuv_type = notyuv_tag ∨ a.dis_yuv_type = notyuv_tag
            ∨ a.ref_yuv_type = a.dis_yuv_type) :
    (∃ e, assert_an_asset true a = Except.error e ∧ isPreconditionError e = true)
    ∧ (∃ e, noref_assert_an_asset true a = Except.error e ∧ isPreconditionError e = true)
    ∧ (∃ e, executor_pipeline true cfg pp env store fs eid astr a = Except.error e
            ∧ isPreconditionError e = true)
    ∧ pipeline_transcoder_calls (executor_pipeline true cfg pp env store fs eid astr a) = 0 := by
  have hkprop : ¬(qw_key ∈ a.asset_dict_keys ∧ qh_key ∈ a.asset_dict_keys) := by
    intro hb
    exact hmiss ⟨contains_eq_true_of_mem _ _ hb.1, contains_eq_true_of_mem _ _ hb.2⟩
  have hyuvb : ((a.ref_yuv_type == notyuv_tag || a.dis_yuv_type == notyuv_tag)
                || a.ref_yuv_type == a.dis_yuv_type) = true := by
    rcases hyuv with h | h | h <;> simp [h]
  have hfull : ∃ e, assert_an_asset true a = Except.error e ∧ isPreconditionError e = true := by
    cases hq : a.quality_width_height.isNone with
    | true => exact ⟨AssertError.missingQualityDims, by simp [assert_an_asset, hq], rfl⟩
    | false =>
        rcases hcrop : a.crop_cmd with _ | c
        · have hpad : a.pad_cmd ≠ none := by
            rcases hreq with h | h
            · exact absurd hcrop h
            · exact h
          refine ⟨AssertError.padNeedsExplicitQuality, ?_, rfl⟩
          simp [assert_an_asset, hq, hyuvb, hcrop, Option.isSome_iff_ne_none, hpad]
          intro h1 h2
          exact hkprop ⟨h1, h2⟩
        · refine ⟨AssertError.cropNeedsExplicitQuality, ?_, rfl⟩
          simp [assert_an_asset, hq, hyuvb, hcrop]
          intro h1 h2
          exact absurd ⟨h1, h2⟩ hkprop
  have hnoref : ∃ e, noref_assert_an_asset true a = Except.error e
      ∧ isPreconditionError e = true := by
    cases hq : a.quality_width_height.isNone with
    | true => exact ⟨AssertError.missingQualityDims, by simp [noref_assert_an_asset, hq], rfl⟩
    | false =>
        rcases hcrop : a.crop_cmd with _ | c
        · have hpad : a.pad_cmd ≠ none := by
            rcases hreq with h | h
            · exact absurd hcrop h
            · exact h
          refine ⟨AssertError.padNeedsExplicitQuality, ?_, rfl⟩
          simp [noref_assert_an_asset, hq, hcrop, Option.isSome_iff_ne_none, hpad]
          intro h1 h2
          exact hkprop ⟨h1, h2⟩
        · refine ⟨AssertError.cropNeedsExplicitQuality, ?_, rfl⟩
          simp [noref_assert_an_asset, hq, hcrop]
          intro h1 h2
          exact absurd ⟨h1, h2⟩ hkprop
  obtain ⟨e, he, hpe⟩ := hfull
  refine ⟨⟨e, he, hpe⟩, hnoref, ⟨e, ?_, hpe⟩, ?_⟩
  · simp [executor_pipeline, he]
  · simp [pipeline_transcoder_calls, executor_pipeline, he]

/-- Witness for C7 at a concrete asset. -/
theorem C7_crop_pad_requires_explicit_quality_witness :
    (∃ e, assert_an_asset true c7_asset = Except.error e ∧ isPreconditionError e = true)
    ∧ (∃ e, noref_assert_an_asset true c7_asset = Except.error e
            ∧ isPreconditionError e = true)
    ∧ (∃ e, executor_pipeline true cfg0 (fun n => n) env0 [] [] eid0 astr0 c7_asset
              = Except.error e
            ∧ isPreconditionError e = true)
    ∧ pipeline_transcoder_calls
        (executor_pipeline true cfg0 (fun n => n) env0 [] [] eid0 astr0 c7_asset) = 0 :=
  C7_crop_pad_requires_explicit_quality cfg0 (fun n => n) env0 [] [] eid0 astr0 c7_asset
    (Or.inl (by decide)) (by decide) (Or.inr (Or.inr rfl))

/-- As coded, the log-directory removal handler swallows every OSError. -/
theorem rmdir_remove_log_dir_ok (o : Option Nat) :
    rmdir_remove_log_dir o = Except.ok () := by
  cases o with
  | none => rfl
  | some errno =>
      rw [rmdir_remove_log_dir]
      cases h : (errno == 39) <;> simp

/-- When the asset's flag has been decided to be true, the miss path of
`_run_on_asset` performs no workfile operation at all and succeeds. -/
theorem run_on_asset_miss_use_path (cfg : Config) (pp : Nat → Nat) (env : Env)
    (store : Store) (fs : List String) (eid astr : String) (a : Asset)
    (hflag : a.use_path_as_workpath = true) :
    run_on_asset_miss cfg pp env store fs eid astr a =
      { result := Except.ok (pp env.gen_value),
        events := [Event.assertPaths, Event.setUsePathAsWorkpath, Event.makeLogParentDirs,
            Event.prepareLogFile, Event.generate, Event.readResult]
          ++ (if cfg.has_result_store then [Event.saveResult] else [])
          ++ (if cfg.delete_workdir then [Event.removeLog, Event.removeLogDir] else [])
          ++ [Event.postProcess],
        store := if cfg.has_result_store then store_save store astr eid env.gen_value
                 else store,
        fs := fs, asset := a, genCount := 1, transcoderCalls := 0 } := by
  obtain ⟨f, d, s⟩ := cfg
  cases d <;> cases s <;>
    simp [run_on_asset_miss, open_step, hflag, rmdir_remove_log_dir_ok]

/-- C4: for an asset whose flag is initially unset, the DecideWorkpath step
sets use-path-as-workpath exactly when no transcode is needed; and whenever
the decided flag is true, the run performs no workfile teardown, creates no
workfile and no pipe, leaves the filesystem untouched and never invokes the
transcoder. -/
theorem C4_use_path_as_workpath (cfg : Config) (pp : Nat → Nat) (env : Env)
    (store : Store) (fs : List String) (eid astr : String) (a : Asset)
    (hflag : a.use_path_as_workpath = false) :
    ((set_asset_use_path_as_workpath a).use_path_as_workpath = !(need_ffmpeg a))
    ∧ (need_ffmpeg a = false →
        Event.closeWorkfiles ∉ (run_on_asset cfg pp env store fs eid astr a).events
        ∧ Event.openWorkfilesFifo ∉ (run_on_asset cfg pp env store fs eid astr a).events
        ∧ Event.openWorkfilesDirect ∉ (run_on_asset cfg pp env store fs eid astr a).events
        ∧ (run_on_asset cfg pp env store fs eid astr a).fs = fs
        ∧ (run_on_asset cfg pp env store fs eid astr a).transcoderCalls = 0) := by
  constructor
  · cases hn : need_ffmpeg a <;> simp [set_asset_use_path_as_workpath, hn, hflag]
  · intro hn
    have hset : (set_asset_use_path_as_workpath a).use_path_as_workpath = true := by
      simp [set_asset_use_path_as_workpath, hn]
    rw [run_on_asset]
    cases hc : (if cfg.has_result_store then store_load store astr eid else none) with
    | some r => exact ⟨by simp, by simp, by simp, rfl, rfl⟩
    | none =>
        cases h1 : env.ref_path_exists with
        | false => exact ⟨by simp [h1], by simp [h1], by simp [h1], by simp [h1], by simp [h1]⟩
        | true =>
            cases h2 : env.dis_path_exists with
            | false =>
                exact ⟨by simp [h1, h2], by simp [h1, h2], by simp [h1, h2],
                  by simp [h1, h2], by simp [h1, h2]⟩
            | true =>
                rw [if_neg (by simp [h1]), if_neg (by simp [h2])]
                rw [run_on_asset_miss_use_path cfg pp env store fs eid astr _ hset]
                refine ⟨?_, ?_, ?_, rfl, rfl⟩ <;>
                  cases cfg.has_result_store <;> cases cfg.delete_workdir <;> simp

/-- Witness for C4 at a concrete asset needing no transcode. -/
theorem C4_use_path_as_workpath_witness :
    ((set_asset_use_path_as_workpath asset0).use_path_as_workpath = !(need_ffmpeg asset0))
    ∧ (need_ffmpeg asset0 = false →
        Event.closeWorkfiles ∉ (run_on_asset cfg0 (fun n => n) env0 [] [] eid0 astr0 asset0).events
        ∧ Event.openWorkfilesFifo
            ∉ (run_on_asset cfg0 (fun n => n) env0 [] [] eid0 astr0 asset0).events
        ∧ Event.openWorkfilesDirect
            ∉ (run_on_asset cfg0 (fun n => n) env0 [] [] eid0 astr0 asset0).events
        ∧ (run_on_asset cfg0 (fun n => n) env0 [] [] eid0 astr0 asset0).fs = []
        ∧ (run_on_asset cfg0 (fun n => n) env0 [] [] eid0 astr0 asset0).transcoderCalls = 0) :=
  C4_use_path_as_workpath cfg0 (fun n => n) env0 [] [] eid0 astr0 asset0 rfl

/-- On a cache miss with transcode needed, fifo mode active and the pipes
never appearing, the miss path of `_run_on_asset` tears down stale
workfiles, starts the producers and then fails with the workfile timeout,
saving nothing. -/
theorem run_on_asset_miss_fifo_timeout (cfg : Config) (pp : Nat → Nat) (env : Env)
    (store : Store) (fs : List String) (eid astr : String) (a : Asset)
    (hflag : a.use_path_as_workpath = false)
    (hfifo : cfg.fifo_mode = true)
    (href : a.ref_path ≠ a.ref_workfile_path)
    (hdis : a.dis_path ≠ a.dis_workfile_path)
    (hready : (List.range max_poll_attempts).any env.pipe_ready = false) :
    run_on_asset_miss cfg pp env store fs eid astr a =
      { result := Except.error RunError.workfileTimeout,
        events := [Event.assertPaths, Event.setUsePathAsWorkpath, Event.closeWorkfiles,
          Event.makeLogParentDirs, Event.openWorkfilesFifo],
        store := store,
        fs := (fs.erase a.ref_workfile_path).erase a.dis_workfile_path,
        asset := a, genCount := 0, transcoderCalls := 2 } := by
  have hclose : close_workfiles fs a
      = Except.ok ((fs.erase a.ref_workfile_path).erase a.dis_workfile_path) := by
    rw [close_workfiles, close_ref_workfile_eq fs a hflag href]
    exact close_dis_workfile_eq _ a hflag hdis
  simp [run_on_asset_miss, open_step, hflag, hfifo, hclose, wait_for_workfiles, hready]

/-- C6: in pipe mode the manager polls for the pipes at 100 ms intervals
for at most 10 attempts (a one-second ceiling); if no attempt sees them,
the run for the asset aborts with the timeout error, the generate hook is
never reached and nothing is saved to the result store. -/
theorem C6_pipe_timeout (cfg : Config) (pp : Nat → Nat) (env : Env)
    (store : Store) (fs : List String) (eid astr : String) (a : Asset)
    (hload : store_load store astr eid = none)
    (href_e : env.ref_path_exists = true) (hdis_e : env.dis_path_exists = true)
    (hfifo : cfg.fifo_mode = true)
    (hneed : need_ffmpeg a = true)
    (hflag : a.use_path_as_workpath = false)
    (href : a.ref_path ≠ a.ref_workfile_path)
    (hdis : a.dis_path ≠ a.dis_workfile_path)
    (hready : ∀ i : Nat, i < max_poll_attempts → env.pipe_ready i = false) :
    (run_on_asset cfg pp env store fs eid astr a).result = Except.error RunError.workfileTimeout
    ∧ (run_on_asset cfg pp env store fs eid astr a).store = store
    ∧ Event.saveResult ∉ (run_on_asset cfg pp env store fs eid astr a).events
    ∧ Event.generate ∉ (run_on_asset cfg pp env store fs eid astr a).events
    ∧ (run_on_asset cfg pp env store fs eid astr a).genCount = 0
    ∧ max_poll_attempts = 10 ∧ poll_interval_ms = 100
    ∧ max_poll_attempts * poll_interval_ms = 1000 := by
  have hany : (List.range max_poll_attempts).any env.pipe_ready = false := by
    rw [List.any_eq_false]
    intro x hx
    simp [hready x (List.mem_range.mp hx)]
  have hset : set_asset_use_path_as_workpath a = a := by
    simp [set_asset_use_path_as_workpath, hneed]
  have hrun : run_on_asset cfg pp env store fs eid astr a
      = run_on_asset_miss cfg pp env store fs eid astr a := by
    simp [run_on_asset, hload, href_e, hdis_e, hset]
  rw [hrun, run_on_asset_miss_fifo_timeout cfg pp env store fs eid astr a
    hflag hfifo href hdis hany]
  exact ⟨rfl, rfl, by simp, by simp, rfl, rfl, rfl, rfl⟩

/-- Witness for C6 at a concrete asset and environment. -/
theorem C6_pipe_timeout_witness :
    (run_on_asset cfg_fifo (fun n => n) env_nopipes [] [] eid0 astr0 c6_asset).result
        = Except.error RunError.workfileTimeout
    ∧ (run_on_asset cfg_fifo (fun n => n) env_nopipes [] [] eid0 astr0 c6_asset).store = []
    ∧ Event.saveResult
        ∉ (run_on_asset cfg_fifo (fun n => n) env_nopipes [] [] eid0 astr0 c6_asset).events
    ∧ Event.generate
        ∉ (run_on_asset cfg_fifo (fun n => n) env_nopipes [] [] eid0 astr0 c6_asset).events
    ∧ (run_on_asset cfg_fifo (fun n => n) env_nopipes [] [] eid0 astr0 c6_asset).genCount = 0
    ∧ max_poll_attempts = 10 ∧ poll_interval_ms = 100
    ∧ max_poll_attempts * poll_interval_ms = 1000 :=
  C6_pipe_timeout cfg_fifo (fun n => n) env_nopipes [] [] eid0 astr0 c6_asset
    rfl rfl rfl rfl (by decide) rfl (by decide) (by decide) (fun i _ => rfl)

/-- The miss path either errors out, or succeeds having saved the read
value under the asset's key (when a result store is configured). -/
theorem run_on_asset_miss_cases (cfg : Config) (pp : Nat → Nat) (env : Env)
    (store : Store) (fs : List String) (eid astr : String) (a : Asset)
    (hstore : cfg.has_result_store = true) :
    (∃ e, (run_on_asset_miss cfg pp env store fs eid astr a).result = Except.error e)
    ∨ ((run_on_asset_miss cfg pp env store fs eid astr a).result
          = Except.ok (pp env.gen_value)
       ∧ (run_on_asset_miss cfg pp env store fs eid astr a).store
          = store_save store astr eid env.gen_value) := by
  simp only [run_on_asset_miss]
  split
  · exact Or.inl ⟨_, rfl⟩
  · split
    · exact Or.inl ⟨_, rfl⟩
    · split
      · exact Or.inl ⟨_, rfl⟩
      · split
        · exact Or.inl ⟨_, rfl⟩
        · exact Or.inr ⟨rfl, by simp [hstore]⟩

/-- Looking up the key just saved yields the saved value. -/
theorem store_load_save (store : Store) (astr eid : String) (v : Nat) :
    store_load (store_save store astr eid v) astr eid = some v := by
  simp [store_save, store_load]

/-- Either the whole run errors out, or it returns a post-processed value
whose pre-image is stored under the asset's key afterwards. -/
theorem run_on_asset_cases (cfg : Config) (pp : Nat → Nat) (env : Env)
    (store : Store) (fs : List String) (eid astr : String) (a : Asset)
    (hstore : cfg.has_result_store = true) :
    (∃ e, (run_on_asset cfg pp env store fs eid astr a).result = Except.error e)
    ∨ (∃ w, (run_on_asset cfg pp env store fs eid astr a).result = Except.ok (pp w)
        ∧ store_load (run_on_asset cfg pp env store fs eid astr a).store astr eid
            = some w) := by
  rw [run_on_asset]
  cases hc : (if cfg.has_result_store then store_load store astr eid else none) with
  | some r =>
      refine Or.inr ⟨r, rfl, ?_⟩
      rw [hstore] at hc
      simpa using hc
  | none =>
      cases h1 : env.ref_path_exists with
      | false => exact Or.inl ⟨RunError.refPathMissing, by simp [h1]⟩
      | true =>
          cases h2 : env.dis_path_exists with
          | false => exact Or.inl ⟨RunError.disPathMissing, by simp [h1, h2]⟩
          | true =>
              rw [if_neg (by simp [h1]), if_neg (by simp [h2])]
              rcases run_on_asset_miss_cases cfg pp env store fs eid astr
                  (set_asset_use_path_as_workpath a) hstore with ⟨e, he⟩ | ⟨hok, hsave⟩
              · exact Or.inl ⟨e, he⟩
              · exact Or.inr ⟨env.gen_value, hok, by rw [hsave]; exact store_load_save _ _ _ _⟩

/-- C1: a cache hit short-circuits the whole run: only the post-process
transform is applied to the cached value, nothing else happens (no path
assert, no workfile operation, no log handling, no generate or read hook,
no save), and the store and filesystem are untouched.  Consequently, when
a first run on the same asset string and executor id returns a result, a
second run is a pure cache hit and invokes the generate hook zero
additional times. -/
theorem C1_cache_hit_short_circuit (cfg : Config) (pp : Nat → Nat) (env env2 : Env)
    (store : Store) (fs fs2 : List String) (eid astr : String) (a : Asset) (r : Nat)
    (hstore : cfg.has_result_store = true) :
    (store_load store astr eid = some r →
      run_on_asset cfg pp env store fs eid astr a =
        { result := Except.ok (pp r), events := [Event.postProcess], store := store,
          fs := fs, asset := a, genCount := 0, transcoderCalls := 0 })
    ∧ (∀ v : Nat, (run_on_asset cfg pp env store fs eid astr a).result = Except.ok v →
        (run_on_asset cfg pp env2 (run_on_asset cfg pp env store fs eid astr a).store
            fs2 eid astr a).genCount = 0
        ∧ (run_on_asset cfg pp env2 (run_on_asset cfg pp env store fs eid astr a).store
            fs2 eid astr a).events = [Event.postProcess]) := by
  constructor
  · intro hhit
    simp [run_on_asset, hstore, hhit]
  · intro v hok
    rcases run_on_asset_cases cfg pp env store fs eid astr a hstore with ⟨e, he⟩ | ⟨w, hw, hload2⟩
    · rw [he] at hok
      exact absurd hok (by simp)
    · generalize hst2 : (run_on_asset cfg pp env store fs eid astr a).store = st2 at hload2
      constructor <;> simp [run_on_asset, hstore, hload2, hst2]

/-- Witness for C1: at a store already holding the result, the run is the
pure hit record, and a second run after any successful run performs zero
generate invocations. -/
theorem C1_cache_hit_short_circuit_witness :
    (store_load store1 astr0 eid0 = some 5 →
      run_on_asset cfg_fifo (fun n => n) env0 store1 [] eid0 astr0 asset0 =
        { result := Except.ok 5, events := [Event.postProcess], store := store1,
          fs := [], asset := asset0, genCount := 0, transcoderCalls := 0 })
    ∧ (∀ v : Nat,
        (run_on_asset cfg_fifo (fun n => n) env0 store1 [] eid0 astr0 asset0).result
          = Except.ok v →
        (run_on_asset cfg_fifo (fun n => n) env0
            (run_on_asset cfg_fifo (fun n => n) env0 store1 [] eid0 astr0 asset0).store
            [] eid0 astr0 asset0).genCount = 0
        ∧ (run_on_asset cfg_fifo (fun n => n) env0
            (run_on_asset cfg_fifo (fun n => n) env0 store1 [] eid0 astr0 asset0).store
            [] eid0 astr0 asset0).events = [Event.postProcess]) :=
  C1_cache_hit_short_circuit cfg_fifo (fun n => n) env0 env0 store1 [] [] eid0 astr0 asset0 5 rfl

/-- C5 (code bug): the cleanup handler around `os.rmdir` is written as
`except OSError as e:` with body `if e.errno == 39: pass` and no re-raise,
so every OSError is swallowed, not only directory-not-empty.  At errno 13
the code swallows the error (the run still returns its result), while the
claim says every error other than errno 39 propagates; the spec-side
handler built from the claim errors out at the same input. -/
theorem C5_rmdir_errno_swallowed :
    env_rmdir13.rmdir_errno = some 13
    ∧ (13 == 39) = false
    ∧ rmdir_remove_log_dir (some 13) = Except.ok ()
    ∧ rmdir_remove_log_dir_spec (some 13) = Except.error (RunError.rmdirError 13)
    ∧ (run_on_asset cfg0 (fun n => n) env_rmdir13 [] [] eid0 astr0 asset0).result
        = Except.ok 7
    ∧ Event.removeLogDir
        ∈ (run_on_asset cfg0 (fun n => n) env_rmdir13 [] [] eid0 astr0 asset0).events := by
  refine ⟨rfl, rfl, rfl, rfl, ?_, ?_⟩ <;> decide
